import Mathlib

/-!
Verification of the pubmed-paper-fetcher core (src/notebook.ipynb):
shallow embedding of `mkquery`, `getXmlFromURL`, `fetch_paper_ids`,
`fetch_paper_details`, `check_academic` and `process_papers`, with the
HTTP transport and the XML parser abstracted as the (status, parse
result) of each response.  Strings are handled at the ASCII level, which
covers every keyword and every concrete string in the development.
-/

namespace PubMed

/-- Python `string.punctuation`: exactly the ASCII characters
`!"#$%&'()*+,-./`, `:;<=>?@`, `[\]^_` + backquote, and `{|}~`,
i.e. codes 33-47, 58-64, 91-96 and 123-126. -/
def isPunct (c : Char) : Bool :=
  let n := c.toNat
  (33 ≤ n && n ≤ 47) || (58 ≤ n && n ≤ 64) || (91 ≤ n && n ≤ 96) ||
    (123 ≤ n && n ≤ 126)

/-- ASCII whitespace as recognised by Python `str.split()` / `str.strip()`
(space, tab, newline, carriage return, vertical tab, form feed). -/
def isSpaceChar (c : Char) : Bool :=
  c = ' ' || c = '\t' || c = '\n' || c = '\r' || c.toNat = 11 || c.toNat = 12

/-- Helper for `splitWs`: accumulates the current (reversed) token. -/
def splitWsAux : List Char → List Char → List String
  | [], [] => []
  | [], acc => [String.mk acc.reverse]
  | c :: rest, acc =>
    if isSpaceChar c then
      match acc with
      | [] => splitWsAux rest []
      | _ :: _ => String.mk acc.reverse :: splitWsAux rest []
    else splitWsAux rest (c :: acc)

/-- Python `str.split()` with no argument: split on runs of whitespace,
discarding empty tokens. -/
def splitWs (cs : List Char) : List String := splitWsAux cs []

/-- Python `str.strip()`: remove leading and trailing whitespace. -/
def pyStrip (s : String) : String :=
  String.mk (((s.data.dropWhile isSpaceChar).reverse.dropWhile isSpaceChar).reverse)

/-- The fixed keyword list of `check_academic`. -/
def academic_keywords : List String :=
  ["school", "university", "college", "institute", "research", "lab"]

/-- The token pipeline of `check_academic`:
`affiliation.translate(str.maketrans('', '', string.punctuation))`,
then `.lower()`, then `.split()`. -/
def tokensOf (s : String) : List String :=
  splitWs ((s.data.filter (fun c => !isPunct c)).map Char.toLower)

/-- `check_academic` from the notebook: strip punctuation, lower-case,
split into a set of tokens, and test
`len(set(academic_keywords).intersection(set(tokens))) > 0`. -/
def check_academic (affiliation : String) : Bool :=
  decide (0 < (academic_keywords.toFinset ∩ (tokensOf affiliation).toFinset).card)

/-- Reference definition following the spec's words (§4.3): strip all
punctuation characters, lower-case, split on whitespace into tokens, and
return true iff some token belongs to the fixed keyword set. -/
def isAcademicSpec (s : String) : Bool :=
  (tokensOf s).any (fun t => academic_keywords.contains t)

theorem check_academic_eq_true_iff (s : String) :
    check_academic s = true ↔ ∃ t ∈ tokensOf s, t ∈ academic_keywords := by
  simp only [check_academic, decide_eq_true_eq, Finset.card_pos,
    Finset.Nonempty, Finset.mem_inter, List.mem_toFinset]
  constructor
  · rintro ⟨t, ht, hs⟩; exact ⟨t, hs, ht⟩
  · rintro ⟨t, hs, ht⟩; exact ⟨t, ht, hs⟩

/-! ## XML documents

`xml.etree.ElementTree` elements: a tag, an optional text, and an ordered
list of children. -/

/-- An XML element as built by `ET.fromstring`. -/
inductive Xml where
  | elem (tag : String) (text : Option String) (children : List Xml)

/-- The tag of an element. -/
def Xml.tag : Xml → String
  | .elem t _ _ => t

/-- The `text` attribute of an element (`None` in Python when absent). -/
def Xml.text : Xml → Option String
  | .elem _ tx _ => tx

/-- The children of an element. -/
def Xml.children : Xml → List Xml
  | .elem _ _ ch => ch

/-- `findtext` returns the found element's text, with `''` substituted
when the element carries no text. -/
def Xml.textOrEmpty (x : Xml) : String := x.text.getD ""

mutual
/-- `element.iter(tag)`: the element itself and all its descendants with
the given tag, in document order. -/
def iterTag (t : String) : Xml → List Xml
  | .elem tg tx ch =>
    (if tg = t then [Xml.elem tg tx ch] else []) ++ iterTagList t ch

/-- `iterTag` mapped over a list of elements. -/
def iterTagList (t : String) : List Xml → List Xml
  | [] => []
  | x :: xs => iterTag t x ++ iterTagList t xs
end

/-- `element.findall('.//tag')`: all proper descendants with the given
tag, in document order (the element itself is excluded). -/
def findAllDesc (t : String) (x : Xml) : List Xml := iterTagList t x.children

/-- `element.findtext('.//tag')` with no default: the text of the first
matching descendant (`''` if it has no text), or `None` when there is no
match. -/
def findtextDesc (t : String) (x : Xml) : Option String :=
  (findAllDesc t x).head?.map Xml.textOrEmpty

/-- `element.findtext(tag, '')`: the text of the first matching direct
child, or the default `''` when there is none. -/
def findtextChildD (t : String) (x : Xml) : String :=
  match x.children.find? (fun c => c.tag = t) with
  | some c => c.textOrEmpty
  | none => ""

/-- The elements matched by the path `'.//PubDate/Year'`: `Year` children
of any `PubDate` descendant, in document order. -/
def pubDateYears (x : Xml) : List Xml :=
  (findAllDesc "PubDate" x).flatMap (fun pd => pd.children.filter (fun c => c.tag = "Year"))

/-! ## HTTP transport and `getXmlFromURL`

The transport is abstracted: a response is its status code together with
the XML parse result of its body (`none` when the body is not well-formed
XML). -/

/-- The error taxonomy: `requests.HTTPError` from `raise_for_status`, and
`xml.etree.ElementTree.ParseError` from `ET.fromstring`. -/
inductive FetchError where
  | requestError
  | parseError
deriving DecidableEq

/-- An HTTP response: its status code and the XML parse of its body
(`none` when the body is not well-formed XML). -/
structure HttpResponse where
  status : Nat
  body : Option Xml

/-- `mkquery`: `"&".join(f"{key}={value}" for key, value in params.items())`. -/
def joinParams : List (String × String) → String
  | [] => ""
  | [(k, v)] => k ++ "=" ++ v
  | (k, v) :: p :: rest => k ++ "=" ++ v ++ "&" ++ joinParams (p :: rest)

/-- `mkquery(base_url, params)` = `f"{base_url}?{query}"`. -/
def mkquery (base_url : String) (params : List (String × String)) : String :=
  base_url ++ "?" ++ joinParams params

/-- The search endpoint constant `BASEURL_SRCH`. -/
def BASEURL_SRCH : String := "https://eutils.ncbi.nlm.nih.gov/entrez/eutils/esearch.fcgi"

/-- The fetch endpoint constant `BASEURL_FTCH`. -/
def BASEURL_FTCH : String := "https://eutils.ncbi.nlm.nih.gov/entrez/eutils/efetch.fcgi"

/-- `response.raise_for_status()`: raises `HTTPError` exactly for status
codes 400-599. -/
def raise_for_status (r : HttpResponse) : Except FetchError Unit :=
  if 400 ≤ r.status ∧ r.status < 600 then .error .requestError else .ok ()

/-- `getXmlFromURL`: issue the request, `raise_for_status`, then parse
the body with `ET.fromstring` (which raises `ParseError` on a body that
is not well-formed XML). -/
def getXmlFromURL (r : HttpResponse) : Except FetchError Xml :=
  match raise_for_status r with
  | .error e => .error e
  | .ok _ =>
    match r.body with
    | some root => .ok root
    | none => .error .parseError

/-- `fetch_paper_ids`: ids from all `.//Id` descendants (each entry the
node's `text`, possibly `None`), plus `findtext('.//QueryKey')` and
`findtext('.//WebEnv')`. -/
def fetch_paper_ids (r : HttpResponse) :
    Except FetchError (List (Option String) × Option String × Option String) :=
  match getXmlFromURL r with
  | .error e => .error e
  | .ok root =>
    .ok ((findAllDesc "Id" root).map Xml.text,
         findtextDesc "QueryKey" root, findtextDesc "WebEnv" root)

/-! ## `fetch_paper_details` -/

/-- One paper dict built by `fetch_paper_details` (the three `findtext`
fields are `None` in Python when the element is absent). -/
structure Paper where
  pubmedID : Option String
  title : Option String
  publicationDate : Option String
  authors : List String
  affiliations : List String
deriving DecidableEq

/-- The display name of one author:
`f"{author.findtext('ForeName', '')} {author.findtext('LastName', '')}".strip()`. -/
def authorName (a : Xml) : String :=
  pyStrip (findtextChildD "ForeName" a ++ " " ++ findtextChildD "LastName" a)

/-- The author filter of `fetch_paper_details`: the pair is kept iff
`name and affiliation` is truthy, i.e. the stripped name is non-empty and
the affiliation is neither `None` nor the empty string. -/
def authorEntry (a : Xml) : Option (String × String) :=
  match findtextDesc "Affiliation" a with
  | some f => if authorName a ≠ "" ∧ f ≠ "" then some (authorName a, f) else none
  | none => none

/-- The loop over `article.findall('.//Author')`, appending each kept
author name and affiliation to the two parallel lists. -/
def collectAuthors : List Xml → List String × List String
  | [] => ([], [])
  | a :: rest =>
    let (ns, fs) := collectAuthors rest
    match authorEntry a with
    | some (n, f) => (n :: ns, f :: fs)
    | none => (ns, fs)

/-- The paper dict built for one `PubmedArticle` element. -/
def extractPaper (article : Xml) : Paper :=
  { pubmedID := findtextDesc "PMID" article
    title := findtextDesc "ArticleTitle" article
    publicationDate := (pubDateYears article).head?.map Xml.textOrEmpty
    authors := (collectAuthors (findAllDesc "Author" article)).1
    affiliations := (collectAuthors (findAllDesc "Author" article)).2 }

/-- `fetch_paper_details`: fetch and parse, then build one paper dict per
element of `root.iter('PubmedArticle')`. -/
def fetch_paper_details (r : HttpResponse) : Except FetchError (List Paper) :=
  match getXmlFromURL r with
  | .error e => .error e
  | .ok root => .ok ((iterTag "PubmedArticle" root).map extractPaper)

/-! ## `process_papers` -/

/-- One output row of `process_papers` (the two multi-value fields are
joined with `"; "`). -/
structure Row where
  pubmedID : Option String
  title : Option String
  publicationDate : Option String
  nonAcademicAuthors : String
  companyAffiliations : String
deriving DecidableEq

/-- The per-paper loop of `process_papers` over
`zip(paper['Authors'], paper['Affiliations'])`: keep the pairs whose
affiliation is not academic, in order, as two parallel lists. -/
def selectNonAcademic : List (String × String) → List String × List String
  | [] => ([], [])
  | (a, f) :: rest =>
    let (ns, fs) := selectNonAcademic rest
    if check_academic f then (ns, fs) else (a :: ns, f :: fs)

/-- `"; ".join(...)`. -/
def joinSemicolon (l : List String) : String := String.intercalate "; " l

/-- The row built by `process_papers` for one paper. -/
def mkRow (p : Paper) : Row :=
  let (ns, fs) := selectNonAcademic (p.authors.zip p.affiliations)
  { pubmedID := p.pubmedID
    title := p.title
    publicationDate := p.publicationDate
    nonAcademicAuthors := joinSemicolon ns
    companyAffiliations := joinSemicolon fs }

/-- `process_papers`: one row per paper dict. -/
def process_papers (papers : List Paper) : List Row := papers.map mkRow

/-- The full notebook pipeline: resolve, fetch details, build the report.
An error from either stage aborts before any report is produced. -/
def runPipeline (searchResp fetchResp : HttpResponse) : Except FetchError (List Row) :=
  match fetch_paper_ids searchResp with
  | .error e => .error e
  | .ok _ =>
    match fetch_paper_details fetchResp with
    | .error e => .error e
    | .ok papers => .ok (process_papers papers)

/-! ## Spec-side reference definitions and concrete documents -/

/-- Characters that may appear literally in a URL-encoded query component
(RFC 3986): alphanumerics, the unreserved marks, the percent-escape
introducer, and the sub-delimiters legal in a query.  A raw space is
never among them, so a URL containing a space is not URL-encoded. -/
def isUrlQueryChar (c : Char) : Bool :=
  c.isAlphanum || c ∈ ['-', '.', '_', '~', '%', '!', '$', '&', '=', '+', '*',
    '(', ')', ',', ';', ':', '@', '/', '?']

/-- A string is URL-encoded only if every character is legal in a URL
query component. -/
def isUrlEncoded (s : String) : Bool := s.data.all isUrlQueryChar

/-- The search-request parameters the notebook builds for its own example
query `"machine learning"`. -/
def exampleSearchParams : List (String × String) :=
  [("db", "pubmed"), ("term", "machine learning"), ("retmax", "100"), ("usehistory", "y")]

/-- An author element whose affiliation text is whitespace-only. -/
def wsAuthor : Xml :=
  .elem "Author" none
    [.elem "LastName" (some "Doe") [], .elem "ForeName" (some "Jane") [],
     .elem "AffiliationInfo" none [.elem "Affiliation" (some " ") []]]

/-- A `PubmedArticle` whose only author has a whitespace-only affiliation. -/
def wsArticle : Xml :=
  .elem "PubmedArticle" none
    [.elem "MedlineCitation" none
      [.elem "PMID" (some "100") [],
       .elem "Article" none
         [.elem "ArticleTitle" (some "T") [],
          .elem "AuthorList" none [wsAuthor]]]]

/-- A `PubmedArticle` with a `PMID` and a title but no `PubDate/Year`. -/
def noYearArticle : Xml :=
  .elem "PubmedArticle" none
    [.elem "MedlineCitation" none
      [.elem "PMID" (some "123") [],
       .elem "Article" none [.elem "ArticleTitle" (some "Some Title") []]]]

/-- A `PubmedArticle` with no descendants at all. -/
def emptyArticle : Xml := .elem "PubmedArticle" none []

/-- A `PubmedArticle` whose `PubDate` has a `Year` element carrying no
text. -/
def emptyYearArticle : Xml :=
  .elem "PubmedArticle" none
    [.elem "Article" none
      [.elem "Journal" none
        [.elem "PubDate" none [.elem "Year" none []]]]]

/-- A well-formed search response with zero `Id` elements. -/
def emptySearchDoc : Xml :=
  .elem "eSearchResult" none
    [.elem "Count" (some "0") [],
     .elem "QueryKey" (some "1") [],
     .elem "WebEnv" (some "MCID_abc") []]

/-- A minimal well-formed document with no `Id`, `QueryKey` or `WebEnv`. -/
def doc0 : Xml := .elem "eSearchResult" none []

/-- The spec's worked report example: two authors, one industry and one
academic affiliation. -/
def examplePaper : Paper :=
  { pubmedID := some "1", title := some "T", publicationDate := some "2025"
    authors := ["Jane Doe", "John Roe"]
    affiliations := ["Pfizer Inc.", "MIT University"] }

/-- A paper whose only author has an academic affiliation. -/
def academicOnlyPaper : Paper :=
  { pubmedID := some "2", title := some "U", publicationDate := some "2024"
    authors := ["Ada Lovelace"]
    affiliations := ["MIT University"] }

/-! ## Theorems -/

/-- C2: the Affiliation Classifier equals the spec's reference definition
(strip punctuation, lower-case, split on whitespace, intersect the token
set with the keyword set) on every input string; in particular
`check_academic "Laboratory of Genomics" = false` (whole-token match
only), `check_academic "Dept. of Biology, Lab 4" = true`, and
`check_academic "" = false`. -/
theorem C2_classifier_refines_spec :
    (∀ s : String, check_academic s = isAcademicSpec s) ∧
    check_academic "Laboratory of Genomics" = false ∧
    check_academic "Dept. of Biology, Lab 4" = true ∧
    check_academic "" = false := by
  refine ⟨fun s => ?_, by decide, by decide, by decide⟩
  rw [Bool.eq_iff_iff, check_academic_eq_true_iff]
  simp [isAcademicSpec, List.any_eq_true]

/-- C3: an affiliation string all of whose (at least one) processed
tokens are keywords is classified academic; an affiliation string none of
whose processed tokens is a keyword is classified non-academic. -/
theorem C3_keyword_composition (s : String) :
    (tokensOf s ≠ [] → (∀ t ∈ tokensOf s, t ∈ academic_keywords) →
      check_academic s = true) ∧
    ((∀ t ∈ tokensOf s, t ∉ academic_keywords) → check_academic s = false) := by
  constructor
  · intro hne hall
    obtain ⟨t, ht⟩ := List.exists_mem_of_ne_nil _ hne
    exact (check_academic_eq_true_iff s).mpr ⟨t, ht, hall t ht⟩
  · intro hnone
    rw [Bool.eq_false_iff]
    intro h
    obtain ⟨t, ht, hk⟩ := (check_academic_eq_true_iff s).mp h
    exact hnone t ht hk

/-- Witness for C3 at the concrete inputs `"University, LAB!"` (every
token a keyword) and `"Pfizer Inc"` (no token a keyword). -/
theorem C3_keyword_composition_witness :
    check_academic "University, LAB!" = true ∧
    check_academic "Pfizer Inc" = false :=
  ⟨(C3_keyword_composition "University, LAB!").1 (by decide) (by decide),
   (C3_keyword_composition "Pfizer Inc").2 (by decide)⟩

/-- C10: the Classifier's result depends only on the set of tokens
obtained after punctuation stripping and lower-casing, so permuting or
duplicating tokens never changes the classification. -/
theorem C10_token_set_determines (s₁ s₂ : String)
    (h : (tokensOf s₁).toFinset = (tokensOf s₂).toFinset) :
    check_academic s₁ = check_academic s₂ := by
  simp only [check_academic, h]

/-- Witness for C10: a permuted, duplicated, re-punctuated and re-cased
variant of `"lab University"` gets the same classification. -/
theorem C10_token_set_determines_witness :
    check_academic "lab University" = check_academic "University; LAB lab!" :=
  C10_token_set_determines "lab University" "University; LAB lab!" (by decide)

/-- The per-paper loop keeps exactly the pairs whose affiliation the
Classifier rejects, projected to the two parallel lists. -/
theorem selectNonAcademic_eq (pairs : List (String × String)) :
    selectNonAcademic pairs =
      ((pairs.filter (fun q => !check_academic q.2)).map Prod.fst,
       (pairs.filter (fun q => !check_academic q.2)).map Prod.snd) := by
  induction pairs with
  | nil => rfl
  | cons q rest ih =>
    obtain ⟨a, f⟩ := q
    simp only [selectNonAcademic, ih, List.filter_cons]
    by_cases h : check_academic f
    · simp [h]
    · simp [h]

/-- C4: for every paper, the ReportRow's two multi-value fields are the
joined projections of exactly those (author, affiliation) pairs of the
lock-step zip for which the Classifier returns false, in original order
and of equal length; in particular the spec's worked example produces
`"Jane Doe"` / `"Pfizer Inc."`. -/
theorem C4_report_row_pairs :
    (∀ pairs : List (String × String),
      selectNonAcademic pairs =
        ((pairs.filter (fun q => !check_academic q.2)).map Prod.fst,
         (pairs.filter (fun q => !check_academic q.2)).map Prod.snd) ∧
      (selectNonAcademic pairs).1.length = (selectNonAcademic pairs).2.length) ∧
    (∀ p : Paper,
      (mkRow p).nonAcademicAuthors =
        joinSemicolon
          (((p.authors.zip p.affiliations).filter (fun q => !check_academic q.2)).map
            Prod.fst) ∧
      (mkRow p).companyAffiliations =
        joinSemicolon
          (((p.authors.zip p.affiliations).filter (fun q => !check_academic q.2)).map
            Prod.snd)) ∧
    (mkRow examplePaper).nonAcademicAuthors = "Jane Doe" ∧
    (mkRow examplePaper).companyAffiliations = "Pfizer Inc." := by
  refine ⟨fun pairs => ⟨selectNonAcademic_eq pairs, ?_⟩, fun p => ⟨?_, ?_⟩,
    by decide, by decide⟩
  · rw [selectNonAcademic_eq]; simp
  · rw [mkRow, selectNonAcademic_eq]
  · rw [mkRow, selectNonAcademic_eq]

/-- C5: the Report Builder emits exactly one row per paper (no record is
ever dropped), and a paper with zero non-academic authors still yields a
row whose two multi-value fields are empty joined strings. -/
theorem C5_one_row_per_record :
    (∀ papers : List Paper, (process_papers papers).length = papers.length) ∧
    (∀ p : Paper, selectNonAcademic (p.authors.zip p.affiliations) = ([], []) →
      (mkRow p).nonAcademicAuthors = "" ∧ (mkRow p).companyAffiliations = "") := by
  constructor
  · intro papers
    simp [process_papers]
  · intro p h
    rw [mkRow, h]
    exact ⟨rfl, rfl⟩

/-- Witness for C5 at a one-paper list whose only author is academic: one
row is produced and both multi-value fields are empty. -/
theorem C5_one_row_per_record_witness :
    (process_papers [academicOnlyPaper]).length = [academicOnlyPaper].length ∧
    (mkRow academicOnlyPaper).nonAcademicAuthors = "" ∧
    (mkRow academicOnlyPaper).companyAffiliations = "" :=
  ⟨C5_one_row_per_record.1 [academicOnlyPaper],
   C5_one_row_per_record.2 academicOnlyPaper (by decide)⟩

/-- C1 counterexample: an author whose affiliation text is the
whitespace-only string `" "` (which trims to the empty string) is NOT
dropped — `fetch_paper_details` includes the pair `("Jane Doe", " ")`,
because the code tests the affiliation's truthiness without trimming. -/
theorem C1_counterexample :
    pyStrip " " = "" ∧
    (extractPaper wsArticle).authors = ["Jane Doe"] ∧
    (extractPaper wsArticle).affiliations = [" "] := by
  refine ⟨by decide, ?_, ?_⟩ <;> rfl

/-- C1 amended: an author's (name, affiliation) pair is included iff the
display name is non-empty after trimming and the affiliation text is
present and non-empty WITHOUT trimming; an author whose affiliation is
absent or empty is silently dropped, but a whitespace-only affiliation is
included verbatim. -/
theorem C1_author_inclusion (a : Xml) :
    (∀ n f, authorEntry a = some (n, f) →
      n = authorName a ∧ n ≠ "" ∧ findtextDesc "Affiliation" a = some f ∧ f ≠ "") ∧
    (authorName a ≠ "" → ∀ f, findtextDesc "Affiliation" a = some f → f ≠ "" →
      authorEntry a = some (authorName a, f)) ∧
    ((authorName a = "" ∨ findtextDesc "Affiliation" a = none ∨
      findtextDesc "Affiliation" a = some "") → authorEntry a = none) ∧
    (∀ lst : List Xml, collectAuthors lst =
      ((lst.filterMap authorEntry).map Prod.fst,
       (lst.filterMap authorEntry).map Prod.snd)) := by
  refine ⟨?_, ?_, ?_, ?_⟩
  · intro n f h
    unfold authorEntry at h
    cases hf : findtextDesc "Affiliation" a with
    | none => rw [hf] at h; exact absurd h (by simp)
    | some g =>
      rw [hf] at h
      replace h : (if authorName a ≠ "" ∧ g ≠ "" then some (authorName a, g)
          else none) = some (n, f) := h
      by_cases hc : authorName a ≠ "" ∧ g ≠ ""
      · rw [if_pos hc] at h
        simp only [Option.some.injEq, Prod.mk.injEq] at h
        obtain ⟨h1, h2⟩ := h
        subst h1; subst h2
        exact ⟨rfl, hc.1, rfl, hc.2⟩
      · rw [if_neg hc] at h; exact absurd h (by simp)
  · intro hn f hf hne
    unfold authorEntry
    rw [hf]
    show (if authorName a ≠ "" ∧ f ≠ "" then some (authorName a, f) else none) =
      some (authorName a, f)
    exact if_pos ⟨hn, hne⟩
  · intro h
    unfold authorEntry
    cases hf : findtextDesc "Affiliation" a with
    | none => rfl
    | some g =>
      show (if authorName a ≠ "" ∧ g ≠ "" then some (authorName a, g) else none) = none
      rcases h with h | h | h
      · rw [if_neg]; intro hc; exact hc.1 h
      · rw [hf] at h; cases h
      · rw [hf] at h
        injection h with h'
        subst h'
        rw [if_neg]; intro hc; exact hc.2 rfl
  · intro lst
    induction lst with
    | nil => rfl
    | cons x xs ih =>
      simp only [collectAuthors, ih, List.filterMap_cons]
      cases he : authorEntry x with
      | none => simp
      | some p => obtain ⟨n, f⟩ := p; simp

/-- Witness for the amended C1: the whitespace-only affiliation `" "` of
`wsAuthor` passes the inclusion test, so the pair is kept. -/
theorem C1_author_inclusion_witness :
    authorEntry wsAuthor = some (authorName wsAuthor, " ") :=
  (C1_author_inclusion wsAuthor).2.1 (by decide) " " rfl (by decide)

/-- C6 counterexample: on an article with no `PubDate/Year` element the
publication-date field is `None` (a null), not the empty string. -/
theorem C6_counterexample :
    (extractPaper noYearArticle).publicationDate = none ∧
    (extractPaper noYearArticle).publicationDate ≠ some "" := by
  refine ⟨rfl, by decide⟩

/-- C6 amended: when the `PMID`, `ArticleTitle` or `PubDate/Year` element
is absent from an article element, the corresponding record field is
`None` (an absent value, not the empty string and not a hard failure);
a `Year` element that is present but carries no text yields the empty
string. -/
theorem C6_absent_fields (article : Xml) :
    (findAllDesc "PMID" article = [] → (extractPaper article).pubmedID = none) ∧
    (findAllDesc "ArticleTitle" article = [] → (extractPaper article).title = none) ∧
    (pubDateYears article = [] → (extractPaper article).publicationDate = none) ∧
    (∀ y : Xml, (pubDateYears article).head? = some y → y.text = none →
      (extractPaper article).publicationDate = some "") := by
  refine ⟨?_, ?_, ?_, ?_⟩
  · intro h; simp [extractPaper, findtextDesc, h]
  · intro h; simp [extractPaper, findtextDesc, h]
  · intro h; simp [extractPaper, h]
  · intro y hy hn
    simp [extractPaper, hy, Xml.textOrEmpty, hn]

/-- Witness for the amended C6: an article with no descendants has all
three `None` fields; an article whose `Year` carries no text gets the
empty-string year. -/
theorem C6_absent_fields_witness :
    (extractPaper emptyArticle).pubmedID = none ∧
    (extractPaper emptyArticle).title = none ∧
    (extractPaper emptyArticle).publicationDate = none ∧
    (extractPaper emptyYearArticle).publicationDate = some "" :=
  ⟨(C6_absent_fields emptyArticle).1 rfl,
   (C6_absent_fields emptyArticle).2.1 rfl,
   (C6_absent_fields emptyArticle).2.2.1 rfl,
   (C6_absent_fields emptyYearArticle).2.2.2 (Xml.elem "Year" none []) rfl rfl⟩

/-- C7 counterexample: a 304 response (non-2xx) with a well-formed body
does NOT fail with `RequestError` — `raise_for_status` raises only for
status codes 400-599, so the call succeeds. -/
theorem C7_counterexample :
    (299 < 304) ∧
    fetch_paper_ids ⟨304, some doc0⟩ ≠ .error .requestError ∧
    fetch_paper_ids ⟨304, some doc0⟩ = .ok ([], none, none) := by
  refine ⟨by decide, ?_, rfl⟩
  show Except.ok ([], none, none) ≠ Except.error FetchError.requestError
  simp

/-- C7 amended: the Resolver and the Fetcher fail with `RequestError`
exactly when the HTTP status is 4xx/5xx (400-599), and with `ParseError`
exactly when the status is outside that range and the body is not
well-formed XML; either failure propagates unmodified, with no retry and
no partial result, so no report is produced on error. -/
theorem C7_error_modes (r : HttpResponse) :
    (fetch_paper_ids r = .error .requestError ↔ 400 ≤ r.status ∧ r.status < 600) ∧
    (fetch_paper_details r = .error .requestError ↔ 400 ≤ r.status ∧ r.status < 600) ∧
    (fetch_paper_ids r = .error .parseError ↔
      ¬(400 ≤ r.status ∧ r.status < 600) ∧ r.body = none) ∧
    (fetch_paper_details r = .error .parseError ↔
      ¬(400 ≤ r.status ∧ r.status < 600) ∧ r.body = none) ∧
    (∀ e, getXmlFromURL r = .error e → fetch_paper_ids r = .error e) ∧
    (∀ e, getXmlFromURL r = .error e → fetch_paper_details r = .error e) ∧
    (∀ r₂ e, fetch_paper_ids r = .error e → runPipeline r r₂ = .error e) ∧
    (∀ r₁ ids e, fetch_paper_ids r₁ = .ok ids → fetch_paper_details r = .error e →
      runPipeline r₁ r = .error e) := by
  by_cases hs : 400 ≤ r.status ∧ r.status < 600
  · have hraise : raise_for_status r = .error .requestError := by
      unfold raise_for_status; rw [if_pos hs]
    have hget : getXmlFromURL r = .error .requestError := by
      unfold getXmlFromURL; rw [hraise]
    refine ⟨?_, ?_, ?_, ?_, ?_, ?_, ?_, ?_⟩
    · unfold fetch_paper_ids; rw [hget]; simp [hs]
    · unfold fetch_paper_details; rw [hget]; simp [hs]
    · unfold fetch_paper_ids; rw [hget]; simp [hs]
    · unfold fetch_paper_details; rw [hget]; simp [hs]
    · intro e he; unfold fetch_paper_ids; rw [he]
    · intro e he; unfold fetch_paper_details; rw [he]
    · intro r₂ e he; unfold runPipeline; rw [he]
    · intro r₁ ids e hok he; unfold runPipeline; rw [hok, he]
  · have hraise : raise_for_status r = .ok () := by
      unfold raise_for_status; rw [if_neg hs]
    cases hb : r.body with
    | none =>
      have hget : getXmlFromURL r = .error .parseError := by
        unfold getXmlFromURL; rw [hraise, hb]
      refine ⟨?_, ?_, ?_, ?_, ?_, ?_, ?_, ?_⟩
      · unfold fetch_paper_ids; rw [hget]; simp [hs]
      · unfold fetch_paper_details; rw [hget]; simp [hs]
      · unfold fetch_paper_ids; rw [hget]; simp [hs]
      · unfold fetch_paper_details; rw [hget]; simp [hs]
      · intro e he; unfold fetch_paper_ids; rw [he]
      · intro e he; unfold fetch_paper_details; rw [he]
      · intro r₂ e he; unfold runPipeline; rw [he]
      · intro r₁ ids e hok he; unfold runPipeline; rw [hok, he]
    | some root =>
      have hget : getXmlFromURL r = .ok root := by
        unfold getXmlFromURL; rw [hraise, hb]
      refine ⟨?_, ?_, ?_, ?_, ?_, ?_, ?_, ?_⟩
      · unfold fetch_paper_ids; rw [hget]; simp [hs]
      · unfold fetch_paper_details; rw [hget]; simp [hs]
      · unfold fetch_paper_ids; rw [hget]; simp [hs, hb]
      · unfold fetch_paper_details; rw [hget]; simp [hs, hb]
      · intro e he; rw [hget] at he; cases he
      · intro e he; rw [hget] at he; cases he
      · intro r₂ e he; unfold fetch_paper_ids at he; rw [hget] at he; cases he
      · intro r₁ ids e hok he
        unfold fetch_paper_details at he; rw [hget] at he; cases he

/-- Witness for the amended C7: a 404 fails with `RequestError`, a 200
with a malformed body fails with `ParseError`, and a 503 on the fetch
stage aborts the whole pipeline with `RequestError`. -/
theorem C7_error_modes_witness :
    fetch_paper_ids ⟨404, none⟩ = .error .requestError ∧
    fetch_paper_details ⟨200, none⟩ = .error .parseError ∧
    runPipeline ⟨200, some doc0⟩ ⟨503, some doc0⟩ = .error .requestError :=
  ⟨(C7_error_modes ⟨404, none⟩).1.mpr (by decide),
   (C7_error_modes ⟨200, none⟩).2.2.2.1.mpr ⟨by decide, rfl⟩,
   (C7_error_modes ⟨503, some doc0⟩).2.2.2.2.2.2.2 ⟨200, some doc0⟩
     ([], none, none) .requestError rfl
     ((C7_error_modes ⟨503, some doc0⟩).2.1.mpr (by decide))⟩

/-- C8: a Resolver call whose HTTP response succeeds and parses to a
document with zero `Id` descendants returns `identifiers = []` together
with the extracted `QueryKey`/`WebEnv` values, raising no error; when
those elements are present their (possibly empty) text is returned. -/
theorem C8_zero_ids_no_error (r : HttpResponse) (root : Xml)
    (hs : r.status < 400) (hb : r.body = some root)
    (hids : findAllDesc "Id" root = []) :
    fetch_paper_ids r =
      .ok ([], findtextDesc "QueryKey" root, findtextDesc "WebEnv" root) ∧
    (∀ q, (findAllDesc "QueryKey" root).head? = some q →
      findtextDesc "QueryKey" root = some q.textOrEmpty) ∧
    (∀ w, (findAllDesc "WebEnv" root).head? = some w →
      findtextDesc "WebEnv" root = some w.textOrEmpty) := by
  have hraise : raise_for_status r = .ok () := by
    unfold raise_for_status
    rw [if_neg]
    intro hc
    omega
  have hget : getXmlFromURL r = .ok root := by
    unfold getXmlFromURL; rw [hraise, hb]
  refine ⟨?_, ?_, ?_⟩
  · unfold fetch_paper_ids
    rw [hget]
    show Except.ok ((findAllDesc "Id" root).map Xml.text, _, _) = _
    rw [hids]
    rfl
  · intro q hq; unfold findtextDesc; rw [hq]; rfl
  · intro w hw; unfold findtextDesc; rw [hw]; rfl

/-- Witness for C8: a 200 response carrying a search document with zero
`Id` elements yields `([], some "1", some "MCID_abc")` without error. -/
theorem C8_zero_ids_no_error_witness :
    fetch_paper_ids ⟨200, some emptySearchDoc⟩ =
      .ok ([], some "1", some "MCID_abc") :=
  (C8_zero_ids_no_error ⟨200, some emptySearchDoc⟩ emptySearchDoc
    (by decide) rfl rfl).1.trans rfl

/-- C9 counterexample: `mkquery` applies no URL-encoding — for the
notebook's own example query `"machine learning"` the constructed request
URL contains a raw space, so its parameters are not URL-encoded. -/
theorem C9_counterexample :
    isUrlEncoded (mkquery BASEURL_SRCH exampleSearchParams) = false ∧
    (mkquery BASEURL_SRCH exampleSearchParams).data.contains ' ' = true := by
  refine ⟨?_, ?_⟩ <;> decide

/-- Every parameter's `key=value` fragment occurs verbatim inside the
joined query string. -/
theorem joinParams_infix (ps : List (String × String)) (k v : String)
    (h : (k, v) ∈ ps) :
    ∃ pre post : List Char,
      (joinParams ps).data = pre ++ (k ++ "=" ++ v).data ++ post := by
  induction ps with
  | nil => cases h
  | cons q rest ih =>
    obtain ⟨k', v'⟩ := q
    rcases List.mem_cons.mp h with heq | hmem
    · obtain ⟨hk, hv⟩ := Prod.mk.injEq .. ▸ heq
      subst hk; subst hv
      cases rest with
      | nil => exact ⟨[], [], by simp [joinParams]⟩
      | cons p rest' =>
        refine ⟨[], ("&" ++ joinParams (p :: rest')).data, ?_⟩
        show (k ++ "=" ++ v ++ "&" ++ joinParams (p :: rest')).data = _
        simp [String.data_append, String.append_assoc]
    · cases rest with
      | nil => cases hmem
      | cons p rest' =>
        obtain ⟨pre, post, hpp⟩ := ih hmem
        refine ⟨(k' ++ "=" ++ v' ++ "&").data ++ pre, post, ?_⟩
        show (k' ++ "=" ++ v' ++ "&" ++ joinParams (p :: rest')).data = _
        simp [String.data_append, hpp]

/-- C9 amended: `mkquery` performs no URL-encoding — every parameter's
key and value are placed verbatim (as `key=value`) into the constructed
request URL, so spaces and reserved characters in a query value appear
unencoded. -/
theorem C9_params_verbatim (base : String) (ps : List (String × String))
    (k v : String) (h : (k, v) ∈ ps) :
    ∃ pre post : List Char,
      (mkquery base ps).data = pre ++ (k ++ "=" ++ v).data ++ post := by
  obtain ⟨pre, post, hpp⟩ := joinParams_infix ps k v h
  refine ⟨(base ++ "?").data ++ pre, post, ?_⟩
  unfold mkquery
  simp [String.data_append, hpp]

/-- Witness for the amended C9: the fragment `term=machine learning`
occurs verbatim in the search URL the notebook builds. -/
theorem C9_params_verbatim_witness :
    ∃ pre post : List Char,
      (mkquery BASEURL_SRCH exampleSearchParams).data =
        pre ++ ("term" ++ "=" ++ "machine learning").data ++ post :=
  C9_params_verbatim BASEURL_SRCH exampleSearchParams "term" "machine learning"
    (by decide)

end PubMed
